import Mathlib

/-!
Shallow embedding of the focus-session-logger service: the POST /sessions
handler (validation chain, two-stage media pipeline, persistence) and the
Session schema's media flags.  Stage and store outcomes, which in the source
arrive as thrown exceptions caught by the handler's try/catch blocks, are
modelled as explicit environment parameters.
-/

namespace FocusSession

/-- A JSON-derived JavaScript primitive, as it can appear in a parsed request
body field (absent fields read as undefined). -/
inductive JSValue where
  | undef
  | null
  | str (s : String)
  | num (n : Int)
  | bool (b : Bool)
deriving DecidableEq

/-- JavaScript truthiness of a request-body value, as tested by the source's
presence check (an undefined, null, empty-string, zero or false field is
falsy). -/
def truthy : JSValue → Bool
  | .undef => false
  | .null => false
  | .str s => s != ""
  | .num n => n != 0
  | .bool b => b

/-- Proleptic-Gregorian leap-year test. -/
def isLeapYear (y : Nat) : Bool :=
  (y % 4 == 0 && y % 100 != 0) || y % 400 == 0

/-- Number of days in month m of year y (months 1..12). -/
def daysInMonth (y m : Nat) : Nat :=
  if m == 2 then (if isLeapYear y then 29 else 28)
  else if m == 4 || m == 6 || m == 9 || m == 11 then 30
  else 31

/-- Days from 0000-01-01 to y-01-01 in the proleptic Gregorian calendar. -/
def daysBeforeYear (y : Nat) : Nat :=
  365 * y + (y + 3) / 4 - (y + 99) / 100 + (y + 399) / 400

/-- Days from y-01-01 to y-m-01. -/
def daysBeforeMonth (y m : Nat) : Nat :=
  (List.range m).foldl (fun acc k => if 1 ≤ k then acc + daysInMonth y k else acc) 0

/-- Days from 0000-01-01 to 1970-01-01. -/
def unixEpochDays : Nat := daysBeforeYear 1970

/-- Milliseconds since the Unix epoch for a calendar datetime, provided the
fields are in range; none otherwise (an out-of-range component makes the
Date invalid). -/
def mkUTCTime (y mo d h mi s msec : Nat) : Option Int :=
  if 1 ≤ mo && mo ≤ 12 && 1 ≤ d && d ≤ daysInMonth y mo
      && h ≤ 23 && mi ≤ 59 && s ≤ 59 then
    some ((((daysBeforeYear y + daysBeforeMonth y mo + (d - 1) : Int)
            - (unixEpochDays : Int)) * 86400000)
          + h * 3600000 + mi * 60000 + s * 1000 + msec)
  else none

/-- Decimal value of a digit list, or none if a character is not a digit. -/
def toNum (cs : List Char) : Option Nat :=
  if cs.all Char.isDigit then
    some (cs.foldl (fun a c => 10 * a + (c.toNat - 48)) 0)
  else none

/-- Combine the digit groups of an ISO-8601 UTC instant into epoch ms. -/
def assembleISO (ys mos ds hs mis ss msecs : List Char) : Option Int :=
  match toNum ys, toNum mos, toNum ds, toNum hs, toNum mis, toNum ss, toNum msecs with
  | some y, some mo, some d, some h, some mi, some s, some msec =>
      mkUTCTime y mo d h mi s msec
  | _, _, _, _, _, _, _ => none

/-- The JavaScript Date string parse, modelled on the ISO-8601 UTC instant
subset YYYY-MM-DDTHH:MM:SSZ (optionally with .mmm milliseconds) that the
service's inputs use; strings outside this subset are treated as not
parsing (an invalid Date). -/
def parseISODate (str : String) : Option Int :=
  match str.toList with
  | [y1, y2, y3, y4, '-', a1, a2, '-', b1, b2, 'T',
     c1, c2, ':', d1, d2, ':', e1, e2, 'Z'] =>
      assembleISO [y1, y2, y3, y4] [a1, a2] [b1, b2] [c1, c2] [d1, d2] [e1, e2] ['0', '0', '0']
  | [y1, y2, y3, y4, '-', a1, a2, '-', b1, b2, 'T',
     c1, c2, ':', d1, d2, ':', e1, e2, '.', f1, f2, f3, 'Z'] =>
      assembleISO [y1, y2, y3, y4] [a1, a2] [b1, b2] [c1, c2] [d1, d2] [e1, e2] [f1, f2, f3]
  | _ => none

/-- The source's new Date(x).getTime(): some t when the Date is valid, none
when it is NaN.  A number is taken as epoch ms, null as 0, a boolean as 0 or
1, undefined as invalid, and a string goes through Date parsing. -/
def toTime : JSValue → Option Int
  | .undef => none
  | .null => some 0
  | .str s => parseISODate s
  | .num n => some n
  | .bool b => some (if b then 1 else 0)

/-- A whitespace character as JavaScript's String.prototype.trim removes
(the ASCII whitespace characters; the additional Unicode space characters
JS also strips play no role here). -/
def isJSWhitespace (c : Char) : Bool :=
  c == ' ' || c == '\t' || c == '\n' || c == '\x0b' || c == '\x0c' || c == '\r'

/-- Remove leading and trailing whitespace from a character list. -/
def trimChars (cs : List Char) : List Char :=
  ((cs.dropWhile isJSWhitespace).reverse.dropWhile isJSWhitespace).reverse

/-- JavaScript's String.prototype.trim. -/
def jsTrim (s : String) : String :=
  ⟨trimChars s.data⟩

/-- The parsed request body of POST /sessions: the three destructured
fields, each a JSON primitive or absent. -/
structure RequestBody where
  userId : JSValue
  startTime : JSValue
  endTime : JSValue
deriving DecidableEq

/-- The media sub-document of the Session schema: both flags default false. -/
structure Media where
  compressed : Bool
  audioExtracted : Bool
deriving DecidableEq

/-- The session document built by the handler (userId trimmed, parsed
times in epoch ms, media flags, creation time). -/
structure SessionData where
  userId : String
  startTime : Int
  endTime : Int
  media : Media
  createdAt : Int
deriving DecidableEq

/-- The structured JSON response the handler sends, together with its HTTP
status code.  Fields absent from a given response are none. -/
structure Response where
  status : Nat
  error : Option String
  message : Option String
  sessionId : Option String
  databaseId : Option String
  sessionData : Option SessionData
deriving DecidableEq

/-- Ambient request-scoped data the handler consumes: the generated session
correlation id, the clock value used for createdAt, the outcome of each
simulated pipeline stage (true = completes, false = throws), the outcome of
the store save, and the store-assigned document id on success. -/
structure Env where
  sessionId : String
  now : Int
  compressOk : Bool
  extractOk : Bool
  saveOk : Bool
  databaseId : String
deriving DecidableEq

/-- What one run of the handler did: the response sent, which pipeline
stages started, whether a store save was attempted and succeeded, and the
sequence of media-flag states the session document passed through. -/
structure HandlerResult where
  response : Response
  compressRan : Bool
  extractRan : Bool
  saveAttempted : Bool
  saved : Bool
  mediaTrace : List Media
deriving DecidableEq

def missingFieldsMsg : String := "Missing required fields: userId, startTime, endTime"

def userIdMsg : String := "userId must be a non-empty string"

def startTimeMsg : String := "startTime must be a valid date"

def endTimeMsg : String := "endTime must be a valid date"

def orderMsg : String := "endTime must be after startTime"

def durationMsg : String := "Session duration cannot exceed 8 hours"

def processingFailedMsg : String := "Media processing failed"

def dbFailedMsg : String := "Failed to save session to database"

def successMsg : String := "Session created, processed, and saved successfully"

def internalErrorMsg : String := "Internal server error"

/-- 8 hours in milliseconds, the source's maxDuration. -/
def maxDuration : Int := 8 * 60 * 60 * 1000

/-- The validation block of the handler (lines 56-101 of the route), in the
source's order: field presence by truthiness, userId is a string and
non-empty after trim, startTime parses, endTime parses, endTime strictly
after startTime, duration at most maxDuration.  Returns the error message of
the first failed check, or the userId string with the two parsed times. -/
def validate (body : RequestBody) : Except String (String × Int × Int) :=
  if !truthy body.userId || !truthy body.startTime || !truthy body.endTime then
    .error missingFieldsMsg
  else
    match body.userId with
    | .str u =>
      if (jsTrim u).length == 0 then
        .error userIdMsg
      else
        match toTime body.startTime with
        | none => .error startTimeMsg
        | some s =>
          match toTime body.endTime with
          | none => .error endTimeMsg
          | some e =>
            if e ≤ s then
              .error orderMsg
            else if e - s > maxDuration then
              .error durationMsg
            else
              .ok (u, s, e)
    | _ => .error userIdMsg

/-- The POST /sessions handler: validate, build the session document with
both media flags false, run compression then audio extraction (each flips
its flag on success, a failure is caught and reported with the partial
document), then save to the store (a failure is caught and reported with the
processed document); on success respond 201 with the saved document and its
store id. -/
def handleSession (env : Env) (body : RequestBody) : HandlerResult :=
  match validate body with
  | .error msg =>
    { response := { status := 400, error := some msg, message := none,
                    sessionId := none, databaseId := none, sessionData := none },
      compressRan := false, extractRan := false,
      saveAttempted := false, saved := false, mediaTrace := [] }
  | .ok (u, s, e) =>
    let sd0 : SessionData :=
      { userId := jsTrim u, startTime := s, endTime := e,
        media := { compressed := false, audioExtracted := false },
        createdAt := env.now }
    if !env.compressOk then
      { response := { status := 500, error := some processingFailedMsg, message := none,
                      sessionId := some env.sessionId, databaseId := none,
                      sessionData := some sd0 },
        compressRan := true, extractRan := false,
        saveAttempted := false, saved := false, mediaTrace := [sd0.media] }
    else
      let sd1 : SessionData := { sd0 with media := { sd0.media with compressed := true } }
      if !env.extractOk then
        { response := { status := 500, error := some processingFailedMsg, message := none,
                        sessionId := some env.sessionId, databaseId := none,
                        sessionData := some sd1 },
          compressRan := true, extractRan := true,
          saveAttempted := false, saved := false, mediaTrace := [sd0.media, sd1.media] }
      else
        let sd2 : SessionData := { sd1 with media := { sd1.media with audioExtracted := true } }
        if !env.saveOk then
          { response := { status := 500, error := some dbFailedMsg, message := none,
                          sessionId := some env.sessionId, databaseId := none,
                          sessionData := some sd2 },
            compressRan := true, extractRan := true,
            saveAttempted := true, saved := false,
            mediaTrace := [sd0.media, sd1.media, sd2.media] }
        else
          { response := { status := 201, error := none, message := some successMsg,
                          sessionId := some env.sessionId,
                          databaseId := some env.databaseId, sessionData := some sd2 },
            compressRan := true, extractRan := true,
            saveAttempted := true, saved := true,
            mediaTrace := [sd0.media, sd1.media, sd2.media] }

/-- The response of the handler's outermost catch block (any unexpected
fault is mapped to a generic 500 payload). -/
def internalErrorResponse : Response :=
  { status := 500, error := some internalErrorMsg,
    message := some "An unexpected error occurred while processing the session",
    sessionId := none, databaseId := none, sessionData := none }

/-- The validation outcome actually produced by the code: the error message
of the rejecting branch, or none when validation passes. -/
def validationReason (body : RequestBody) : Option String :=
  match validate body with
  | .error m => some m
  | .ok _ => none

/-- Spec rule 1 violated: some field absent or empty/null (the source tests
this by truthiness). -/
def rule1V (b : RequestBody) : Bool :=
  !truthy b.userId || !truthy b.startTime || !truthy b.endTime

/-- Spec rule 2 violated: userId is not text, or is empty after trimming. -/
def rule2V (b : RequestBody) : Bool :=
  match b.userId with
  | .str u => (jsTrim u).length == 0
  | _ => true

/-- Spec rule 3 violated: startTime does not parse to a valid time. -/
def rule3V (b : RequestBody) : Bool :=
  (toTime b.startTime).isNone

/-- Spec rule 4 violated: endTime does not parse to a valid time. -/
def rule4V (b : RequestBody) : Bool :=
  (toTime b.endTime).isNone

/-- Spec rule 5 violated: endTime not strictly greater than startTime. -/
def rule5V (b : RequestBody) : Bool :=
  match toTime b.startTime, toTime b.endTime with
  | some s, some e => e ≤ s
  | _, _ => false

/-- Spec rule 6 violated: duration exceeds 8 hours. -/
def rule6V (b : RequestBody) : Bool :=
  match toTime b.startTime, toTime b.endTime with
  | some s, some e => e - s > maxDuration
  | _, _ => false

/-- Rule i violated (rules numbered 0..5 in the spec's order). -/
def ruleViolated (b : RequestBody) : Nat → Bool
  | 0 => rule1V b
  | 1 => rule2V b
  | 2 => rule3V b
  | 3 => rule4V b
  | 4 => rule5V b
  | 5 => rule6V b
  | _ => false

/-- The reason string the spec associates to rule i. -/
def ruleMsg : Nat → Option String
  | 0 => some missingFieldsMsg
  | 1 => some userIdMsg
  | 2 => some startTimeMsg
  | 3 => some endTimeMsg
  | 4 => some orderMsg
  | 5 => some durationMsg
  | _ => none

/-- Modelled from the spec's words (for comparison with the code's
validate): the six rules checked in order, first violation wins, each
failure carrying the reason of the violated rule. -/
def specValidationReason (b : RequestBody) : Option String :=
  if rule1V b then some missingFieldsMsg
  else if rule2V b then some userIdMsg
  else if rule3V b then some startTimeMsg
  else if rule4V b then some endTimeMsg
  else if rule5V b then some orderMsg
  else if rule6V b then some durationMsg
  else none

/-- The code's validation chain computes exactly the spec's
first-violated-rule outcome. -/
theorem validationReason_eq_spec (b : RequestBody) :
    validationReason b = specValidationReason b := by
  rcases b with ⟨uid, st, et⟩
  simp only [validationReason, validate, specValidationReason,
    rule1V, rule2V, rule3V, rule4V, rule5V, rule6V]
  by_cases h1 : (!truthy uid || !truthy st || !truthy et) = true
  · simp [h1]
  · cases uid with
    | str u =>
        by_cases h2 : ((jsTrim u).length == 0) = true
        · simp [h1, h2]
        · simp only [if_neg h1, if_neg h2]
          obtain ⟨ost, h3⟩ : ∃ x, toTime st = x := ⟨_, rfl⟩
          obtain ⟨oet, h4⟩ : ∃ x, toTime et = x := ⟨_, rfl⟩
          simp only [h3, h4]
          cases ost with
          | none => simp
          | some s =>
            cases oet with
            | none => simp
            | some e =>
              by_cases h5 : e ≤ s
              · simp [h5]
              · by_cases h6 : maxDuration < e - s
                · simp [h5, h6]
                · simp [h5, h6]
    | undef => simp [truthy] at h1
    | null => simp [truthy] at h1
    | num n => simp [h1]
    | bool v => simp [h1]

theorem string_eq_empty_of_length {s : String} (h : s.length = 0) : s = "" := by
  cases s with
  | mk data =>
    cases data with
    | nil => rfl
    | cons c cs => simp [String.length] at h

theorem validate_error_of_spec (b : RequestBody) (m : String)
    (h : specValidationReason b = some m) : validate b = .error m := by
  have hb := validationReason_eq_spec b
  rw [h] at hb
  unfold validationReason at hb
  cases hv : validate b <;> rw [hv] at hb <;> simp_all

theorem validate_error_mem (b : RequestBody) (m : String)
    (h : validate b = .error m) :
    m = missingFieldsMsg ∨ m = userIdMsg ∨ m = startTimeMsg ∨ m = endTimeMsg ∨
    m = orderMsg ∨ m = durationMsg := by
  have hb := validationReason_eq_spec b
  unfold validationReason at hb
  rw [h] at hb
  unfold specValidationReason at hb
  split_ifs at hb <;>
    (simp only [Option.some.injEq] at hb; subst hb; decide)

theorem handleSession_ok_status (env : Env) (b : RequestBody)
    (u : String) (s e : Int) (h : validate b = .ok (u, s, e)) :
    (handleSession env b).response.status = 500 ∨
    (handleSession env b).response.status = 201 := by
  simp only [handleSession, h]
  cases hc : env.compressOk <;> cases hx : env.extractOk <;>
    cases hs : env.saveOk <;> simp [hc, hx, hs]

/-- If the three fields are a userId string that is non-empty after
trimming and two parseable time strings, validation reduces to the
ordering and duration checks on the parsed times. -/
theorem validate_str (b : RequestBody) (u ss es : String) (s e : Int)
    (hu : b.userId = .str u) (hut : jsTrim u ≠ "")
    (hs : b.startTime = .str ss) (hsp : parseISODate ss = some s)
    (he : b.endTime = .str es) (hep : parseISODate es = some e) :
    validate b =
      (if e ≤ s then .error orderMsg
       else if maxDuration < e - s then .error durationMsg
       else .ok (u, s, e)) := by
  have hvu : u ≠ "" := by
    intro h0
    exact hut (by rw [h0]; rfl)
  have hss : ss ≠ "" := by
    intro h0
    rw [h0] at hsp
    have : parseISODate "" = none := rfl
    rw [this] at hsp
    cases hsp
  have hes : es ≠ "" := by
    intro h0
    rw [h0] at hep
    have : parseISODate "" = none := rfl
    rw [this] at hep
    cases hep
  have hlen : ((jsTrim u).length == 0) = false := by
    simp only [beq_eq_false_iff_ne, ne_eq]
    intro hl
    exact hut (string_eq_empty_of_length hl)
  rcases b with ⟨uid, st, et⟩
  simp only at hu hs he
  subst hu
  subst hs
  subst he
  simp [validate, truthy, hvu, hss, hes, hlen, toTime, hsp, hep]

/-- A request-scoped environment in which both stages and the save
succeed. -/
def envAllOk : Env :=
  { sessionId := "session_1", now := 1704103200000,
    compressOk := true, extractOk := true, saveOk := true,
    databaseId := "db_id_1" }

/-- As envAllOk, but the compression stage throws. -/
def envNoCompress : Env := { envAllOk with compressOk := false }

/-- As envAllOk, but the audio-extraction stage throws. -/
def envNoExtract : Env := { envAllOk with extractOk := false }

/-- As envAllOk, but the store save throws. -/
def envNoSave : Env := { envAllOk with saveOk := false }

/-- The spec's happy-path scenario body: alice, a 2-hour session. -/
def aliceBody : RequestBody :=
  { userId := .str "alice",
    startTime := .str "2024-01-01T10:00:00Z",
    endTime := .str "2024-01-01T12:00:00Z" }

/-- The spec's empty-userId scenario body. -/
def emptyUserBody : RequestBody :=
  { userId := .str "",
    startTime := .str "2024-01-01T10:00:00Z",
    endTime := .str "2024-01-01T12:00:00Z" }

/-- An otherwise-valid body whose duration is exactly 8 hours. -/
def eightHourBody : RequestBody :=
  { userId := .str "alice",
    startTime := .str "2024-01-01T10:00:00Z",
    endTime := .str "2024-01-01T18:00:00Z" }

/-- An otherwise-valid body whose duration is 8 hours plus 1 ms. -/
def overEightBody : RequestBody :=
  { userId := .str "alice",
    startTime := .str "2024-01-01T10:00:00Z",
    endTime := .str "2024-01-01T18:00:00.001Z" }

/-- An otherwise-valid body whose endTime precedes its startTime. -/
def reversedBody : RequestBody :=
  { userId := .str "alice",
    startTime := .str "2024-01-01T12:00:00Z",
    endTime := .str "2024-01-01T10:00:00Z" }

/-- A body whose startTime is the number 0: a present but falsy field. -/
def zeroStartBody : RequestBody :=
  { userId := .str "alice",
    startTime := .num 0,
    endTime := .str "2024-01-01T12:00:00Z" }

/-- C3 counterexample: on the input with empty userId and the two valid
times, the handler's rejection reason is the missing-required-fields
message, not the userId-specific message the claim states. -/
theorem c3_empty_userId_reason_counterexample :
    (handleSession envAllOk emptyUserBody).response.status = 400 ∧
    (handleSession envAllOk emptyUserBody).response.error = some missingFieldsMsg ∧
    (handleSession envAllOk emptyUserBody).response.error ≠ some userIdMsg := by
  refine ⟨rfl, rfl, ?_⟩
  decide

/-- C3 (amended): for the input with userId the empty string and the two
valid times, validation rejects the request (status 400), with the reason
string of the presence check, which tests truthiness and therefore fires on
the empty string before the userId-specific check is reached. -/
theorem c3_empty_userId_rejected (env : Env) :
    (handleSession env emptyUserBody).response.status = 400 ∧
    (handleSession env emptyUserBody).response.error = some missingFieldsMsg :=
  ⟨rfl, rfl⟩

/-- C10: any request with a present-but-falsy field (number 0, empty
string, null, false) in userId, startTime or endTime is rejected with the
missing-required-fields reason, which differs from each field-specific
reason. -/
theorem c10_falsy_field_rejected (env : Env) (b : RequestBody)
    (h : truthy b.userId = false ∨ truthy b.startTime = false ∨
         truthy b.endTime = false) :
    (handleSession env b).response.status = 400 ∧
    (handleSession env b).response.error = some missingFieldsMsg ∧
    missingFieldsMsg ≠ userIdMsg ∧
    missingFieldsMsg ≠ startTimeMsg ∧
    missingFieldsMsg ≠ endTimeMsg := by
  have hcond : (!truthy b.userId || !truthy b.startTime || !truthy b.endTime) = true := by
    rcases h with h | h | h <;> simp [h]
  have hv : validate b = .error missingFieldsMsg := by
    unfold validate
    simp [hcond]
  refine ⟨by simp [handleSession, hv], by simp [handleSession, hv],
    by decide, by decide, by decide⟩

/-- C10 witness: the number 0 as startTime is rejected as missing fields. -/
theorem c10_witness :
    (handleSession envAllOk zeroStartBody).response.status = 400 ∧
    (handleSession envAllOk zeroStartBody).response.error = some missingFieldsMsg :=
  ⟨(c10_falsy_field_rejected envAllOk zeroStartBody (by decide)).1,
   (c10_falsy_field_rejected envAllOk zeroStartBody (by decide)).2.1⟩

/-- C2: the handler's validation implements the spec's six rules in the
fixed order with first-violation-wins (its 400 rejections carry exactly the
reason of the first violated rule, and it rejects exactly when some rule is
violated), and the six reason strings are pairwise distinct. -/
theorem c2_validation_order (env : Env) (b : RequestBody) :
    ((handleSession env b).response.status = 400 ↔ (specValidationReason b).isSome) ∧
    (∀ m, specValidationReason b = some m →
      (handleSession env b).response.status = 400 ∧
      (handleSession env b).response.error = some m) ∧
    List.Pairwise (fun a c => a ≠ c)
      [missingFieldsMsg, userIdMsg, startTimeMsg, endTimeMsg, orderMsg, durationMsg] := by
  refine ⟨?_, ?_, by decide⟩
  · cases hv : validate b with
    | error m =>
      have hs : specValidationReason b = some m := by
        have hb := validationReason_eq_spec b
        unfold validationReason at hb
        rw [hv] at hb
        exact hb.symm
      simp [handleSession, hv, hs]
    | ok t =>
      obtain ⟨u, s, e⟩ := t
      have hs : specValidationReason b = none := by
        have hb := validationReason_eq_spec b
        unfold validationReason at hb
        rw [hv] at hb
        exact hb.symm
      rcases handleSession_ok_status env b u s e hv with h4 | h4 <;> simp [h4, hs]
  · intro m hm
    have hv := validate_error_of_spec b m hm
    exact ⟨by simp [handleSession, hv], by simp [handleSession, hv]⟩

/-- C2 witness: on the whitespace-only userId input the first violated rule
is rule 2, and the handler rejects with exactly that rule's reason. -/
theorem c2_witness :
    (handleSession envAllOk
      { userId := .str " ", startTime := .str "2024-01-01T10:00:00Z",
        endTime := .str "2024-01-01T12:00:00Z" }).response.status = 400 ∧
    (handleSession envAllOk
      { userId := .str " ", startTime := .str "2024-01-01T10:00:00Z",
        endTime := .str "2024-01-01T12:00:00Z" }).response.error = some userIdMsg :=
  (c2_validation_order envAllOk
    { userId := .str " ", startTime := .str "2024-01-01T10:00:00Z",
      endTime := .str "2024-01-01T12:00:00Z" }).2.1 userIdMsg (by decide)

/-- C7: an input that violates exactly one of the six validation rules is
rejected with exactly that rule's reason string, no pipeline stage runs, and
no store write is attempted. -/
theorem c7_single_rule_rejection (env : Env) (b : RequestBody) (i : Nat)
    (hi : i < 6) (hvi : ruleViolated b i = true)
    (hothers : ∀ j, j < 6 → j ≠ i → ruleViolated b j = false) :
    (handleSession env b).response.status = 400 ∧
    some ((handleSession env b).response.error) = some (ruleMsg i) ∧
    (handleSession env b).compressRan = false ∧
    (handleSession env b).extractRan = false ∧
    (handleSession env b).saveAttempted = false ∧
    (handleSession env b).saved = false := by
  have hspec : ∃ m, ruleMsg i = some m ∧ specValidationReason b = some m := by
    interval_cases i <;>
      simp only [ruleViolated] at hvi <;>
      [skip;
       (have h0 := hothers 0 (by omega) (by omega));
       (have h0 := hothers 0 (by omega) (by omega);
        have h1 := hothers 1 (by omega) (by omega));
       (have h0 := hothers 0 (by omega) (by omega);
        have h1 := hothers 1 (by omega) (by omega);
        have h2 := hothers 2 (by omega) (by omega));
       (have h0 := hothers 0 (by omega) (by omega);
        have h1 := hothers 1 (by omega) (by omega);
        have h2 := hothers 2 (by omega) (by omega);
        have h3 := hothers 3 (by omega) (by omega));
       (have h0 := hothers 0 (by omega) (by omega);
        have h1 := hothers 1 (by omega) (by omega);
        have h2 := hothers 2 (by omega) (by omega);
        have h3 := hothers 3 (by omega) (by omega);
        have h4 := hothers 4 (by omega) (by omega))] <;>
      simp_all [ruleViolated, ruleMsg, specValidationReason]
  obtain ⟨m, hmsg, hsp⟩ := hspec
  have hv := validate_error_of_spec b m hsp
  rw [hmsg]
  exact ⟨by simp [handleSession, hv], by simp [handleSession, hv],
    by simp [handleSession, hv], by simp [handleSession, hv],
    by simp [handleSession, hv], by simp [handleSession, hv]⟩

/-- C7 witness: an input violating only the ordering rule (endTime before
startTime) is rejected with the ordering reason and runs nothing. -/
theorem c7_witness :
    (handleSession envAllOk reversedBody).response.status = 400 ∧
    some ((handleSession envAllOk reversedBody).response.error) = some (ruleMsg 4) ∧
    (handleSession envAllOk reversedBody).compressRan = false ∧
    (handleSession envAllOk reversedBody).extractRan = false ∧
    (handleSession envAllOk reversedBody).saveAttempted = false ∧
    (handleSession envAllOk reversedBody).saved = false :=
  c7_single_rule_rejection envAllOk reversedBody 4 (by decide) (by decide)
    (by decide)

/-- C1: a request whose userId is text that is non-empty after trimming and
whose time strings parse with 0 < endTime - startTime ≤ 8 hours, run with
both pipeline stages and the store save succeeding, yields the 201 success
response whose stored record has media.compressed = true and
media.audioExtracted = true. -/
theorem c1_valid_input_persisted (env : Env) (b : RequestBody)
    (u ss es : String) (s e : Int)
    (hu : b.userId = .str u) (hut : jsTrim u ≠ "")
    (hs : b.startTime = .str ss) (hsp : parseISODate ss = some s)
    (he : b.endTime = .str es) (hep : parseISODate es = some e)
    (hd0 : 0 < e - s) (hd8 : e - s ≤ maxDuration)
    (hc : env.compressOk = true) (hx : env.extractOk = true)
    (hsv : env.saveOk = true) :
    (handleSession env b).response.status = 201 ∧
    (handleSession env b).response.sessionData =
      some { userId := jsTrim u, startTime := s, endTime := e,
             media := { compressed := true, audioExtracted := true },
             createdAt := env.now } := by
  have hv : validate b = .ok (u, s, e) := by
    rw [validate_str b u ss es s e hu hut hs hsp he hep]
    rw [if_neg (by omega), if_neg (by omega)]
  constructor <;> simp [handleSession, hv, hc, hx, hsv]

/-- C1 witness: the spec's happy-path scenario (alice, 2 hours, everything
succeeding) reaches the 201 response with both media flags true. -/
theorem c1_witness :
    (handleSession envAllOk aliceBody).response.status = 201 ∧
    (handleSession envAllOk aliceBody).response.sessionData =
      some { userId := jsTrim "alice", startTime := 1704103200000,
             endTime := 1704110400000,
             media := { compressed := true, audioExtracted := true },
             createdAt := envAllOk.now } :=
  c1_valid_input_persisted envAllOk aliceBody "alice"
    "2024-01-01T10:00:00Z" "2024-01-01T12:00:00Z"
    1704103200000 1704110400000 rfl (by decide) rfl (by decide) rfl (by decide)
    (by decide) (by decide) rfl rfl rfl

/-- C4: for an otherwise-valid request (text userId non-empty after trim,
both time strings parsing), a duration of exactly 8 hours passes validation
(no 400 rejection), while 8 hours plus 1 ms is rejected with the
duration-limit reason. -/
theorem c4_duration_boundary (env : Env) (b : RequestBody)
    (u ss es : String) (s e : Int)
    (hu : b.userId = .str u) (hut : jsTrim u ≠ "")
    (hs : b.startTime = .str ss) (hsp : parseISODate ss = some s)
    (he : b.endTime = .str es) (hep : parseISODate es = some e) :
    (e - s = maxDuration → (handleSession env b).response.status ≠ 400) ∧
    (e - s = maxDuration + 1 →
      (handleSession env b).response.status = 400 ∧
      (handleSession env b).response.error = some durationMsg) := by
  constructor
  · intro hd
    have hv : validate b = .ok (u, s, e) := by
      rw [validate_str b u ss es s e hu hut hs hsp he hep]
      rw [if_neg (by simp [maxDuration] at hd ⊢; omega), if_neg (by omega)]
    rcases handleSession_ok_status env b u s e hv with h4 | h4 <;> simp [h4]
  · intro hd
    have hv : validate b = .error durationMsg := by
      rw [validate_str b u ss es s e hu hut hs hsp he hep]
      rw [if_neg (by simp [maxDuration] at hd ⊢; omega), if_pos (by omega)]
    exact ⟨by simp [handleSession, hv], by simp [handleSession, hv]⟩

/-- C4 witness: an 8-hour session passes validation; the same session made
1 ms longer is rejected with the duration reason. -/
theorem c4_witness :
    ((handleSession envAllOk eightHourBody).response.status ≠ 400) ∧
    ((handleSession envAllOk overEightBody).response.status = 400 ∧
     (handleSession envAllOk overEightBody).response.error = some durationMsg) :=
  ⟨(c4_duration_boundary envAllOk eightHourBody "alice"
      "2024-01-01T10:00:00Z" "2024-01-01T18:00:00Z"
      1704103200000 1704132000000 rfl (by decide) rfl (by decide) rfl
      (by decide)).1 (by decide),
   (c4_duration_boundary envAllOk overEightBody "alice"
      "2024-01-01T10:00:00Z" "2024-01-01T18:00:00.001Z"
      1704103200000 1704132000001 rfl (by decide) rfl (by decide) rfl
      (by decide)).2 (by decide)⟩

/-- C5: in every run of the handler, every media-flag state the session
document passes through satisfies audioExtracted → compressed; when the
pipeline runs at all, the state sequence is a stage-by-stage prefix of
both-false, compressed-only, both-true (so flags start false and each
stage's success sets exactly its one flag); and the extraction stage only
runs after the compression stage has completed successfully. -/
theorem c5_flag_order_invariant (env : Env) (b : RequestBody) :
    (∀ m ∈ (handleSession env b).mediaTrace,
      m.audioExtracted = true → m.compressed = true) ∧
    ((handleSession env b).mediaTrace ≠ [] →
      (handleSession env b).mediaTrace =
        [{ compressed := false, audioExtracted := false }] ∨
      (handleSession env b).mediaTrace =
        [{ compressed := false, audioExtracted := false },
         { compressed := true, audioExtracted := false }] ∨
      (handleSession env b).mediaTrace =
        [{ compressed := false, audioExtracted := false },
         { compressed := true, audioExtracted := false },
         { compressed := true, audioExtracted := true }]) ∧
    ((handleSession env b).extractRan = true → env.compressOk = true) := by
  cases hv : validate b with
  | error m => simp [handleSession, hv]
  | ok t =>
    obtain ⟨u, s, e⟩ := t
    cases hc : env.compressOk <;> cases hx : env.extractOk <;>
      cases hsv : env.saveOk <;>
      simp [handleSession, hv, hc, hx, hsv]

/-- C5 witness: with the compression stage failing on the happy-path body,
the trace is the single both-false state, which satisfies the invariant. -/
theorem c5_witness :
    ((handleSession envNoCompress aliceBody).mediaTrace =
        [{ compressed := false, audioExtracted := false }] ∨
      (handleSession envNoCompress aliceBody).mediaTrace =
        [{ compressed := false, audioExtracted := false },
         { compressed := true, audioExtracted := false }] ∨
      (handleSession envNoCompress aliceBody).mediaTrace =
        [{ compressed := false, audioExtracted := false },
         { compressed := true, audioExtracted := false },
         { compressed := true, audioExtracted := true }]) :=
  (c5_flag_order_invariant envNoCompress aliceBody).2.1 (by decide)

/-- C6: on a validated input, a compression failure leaves compressed =
false, never runs extraction, attempts no save, and responds 500 with the
session id and the untouched record; a compression success followed by an
extraction failure leaves compressed = true and audioExtracted = false,
attempts no save, and responds 500 with the session id and the partially
updated record (the compressed flag is preserved, not rolled back). -/
theorem c6_stage_failure_partial_state (env : Env) (b : RequestBody)
    (u : String) (s e : Int) (hv : validate b = .ok (u, s, e)) :
    (env.compressOk = false →
      (handleSession env b).extractRan = false ∧
      (handleSession env b).saveAttempted = false ∧
      (handleSession env b).response.status = 500 ∧
      (handleSession env b).response.error = some processingFailedMsg ∧
      (handleSession env b).response.sessionId = some env.sessionId ∧
      (handleSession env b).response.sessionData =
        some { userId := jsTrim u, startTime := s, endTime := e,
               media := { compressed := false, audioExtracted := false },
               createdAt := env.now }) ∧
    (env.compressOk = true → env.extractOk = false →
      (handleSession env b).saveAttempted = false ∧
      (handleSession env b).response.status = 500 ∧
      (handleSession env b).response.error = some processingFailedMsg ∧
      (handleSession env b).response.sessionId = some env.sessionId ∧
      (handleSession env b).response.sessionData =
        some { userId := jsTrim u, startTime := s, endTime := e,
               media := { compressed := true, audioExtracted := false },
               createdAt := env.now }) := by
  constructor
  · intro hc
    refine ⟨?_, ?_, ?_, ?_, ?_, ?_⟩ <;> simp [handleSession, hv, hc]
  · intro hc hx
    refine ⟨?_, ?_, ?_, ?_, ?_⟩ <;> simp [handleSession, hv, hc, hx]

/-- C6 witness: on the happy-path body, a compression failure reports the
both-false record without running extraction, and an extraction failure
reports the compressed-only record without attempting a save. -/
theorem c6_witness :
    ((handleSession envNoCompress aliceBody).extractRan = false ∧
     (handleSession envNoCompress aliceBody).saveAttempted = false ∧
     (handleSession envNoCompress aliceBody).response.status = 500 ∧
     (handleSession envNoCompress aliceBody).response.error = some processingFailedMsg ∧
     (handleSession envNoCompress aliceBody).response.sessionId =
       some envNoCompress.sessionId ∧
     (handleSession envNoCompress aliceBody).response.sessionData =
       some { userId := jsTrim "alice", startTime := 1704103200000,
              endTime := 1704110400000,
              media := { compressed := false, audioExtracted := false },
              createdAt := envNoCompress.now }) ∧
    ((handleSession envNoExtract aliceBody).saveAttempted = false ∧
     (handleSession envNoExtract aliceBody).response.status = 500 ∧
     (handleSession envNoExtract aliceBody).response.error = some processingFailedMsg ∧
     (handleSession envNoExtract aliceBody).response.sessionId =
       some envNoExtract.sessionId ∧
     (handleSession envNoExtract aliceBody).response.sessionData =
       some { userId := jsTrim "alice", startTime := 1704103200000,
              endTime := 1704110400000,
              media := { compressed := true, audioExtracted := false },
              createdAt := envNoExtract.now }) :=
  ⟨(c6_stage_failure_partial_state envNoCompress aliceBody "alice"
      1704103200000 1704110400000 rfl).1 rfl,
   (c6_stage_failure_partial_state envNoExtract aliceBody "alice"
      1704103200000 1704110400000 rfl).2 rfl rfl⟩

/-- C8: on a validated input with both stages succeeding and the store save
failing, the handler responds 500 with the database-save reason, the session
id, the fully processed record with both media flags true, and no
store-assigned identifier; nothing was saved. -/
theorem c8_save_failure_reports_record (env : Env) (b : RequestBody)
    (u : String) (s e : Int) (hv : validate b = .ok (u, s, e))
    (hc : env.compressOk = true) (hx : env.extractOk = true)
    (hsv : env.saveOk = false) :
    (handleSession env b).response.status = 500 ∧
    (handleSession env b).response.error = some dbFailedMsg ∧
    (handleSession env b).response.sessionId = some env.sessionId ∧
    (handleSession env b).response.databaseId = none ∧
    (handleSession env b).saved = false ∧
    (handleSession env b).response.sessionData =
      some { userId := jsTrim u, startTime := s, endTime := e,
             media := { compressed := true, audioExtracted := true },
             createdAt := env.now } := by
  refine ⟨?_, ?_, ?_, ?_, ?_, ?_⟩ <;> simp [handleSession, hv, hc, hx, hsv]

/-- C8 witness: the happy-path body with a failing save reports the fully
processed record and no database id. -/
theorem c8_witness :
    (handleSession envNoSave aliceBody).response.status = 500 ∧
    (handleSession envNoSave aliceBody).response.error = some dbFailedMsg ∧
    (handleSession envNoSave aliceBody).response.sessionId =
      some envNoSave.sessionId ∧
    (handleSession envNoSave aliceBody).response.databaseId = none ∧
    (handleSession envNoSave aliceBody).saved = false ∧
    (handleSession envNoSave aliceBody).response.sessionData =
      some { userId := jsTrim "alice", startTime := 1704103200000,
             endTime := 1704110400000,
             media := { compressed := true, audioExtracted := true },
             createdAt := envNoSave.now } :=
  c8_save_failure_reports_record envNoSave aliceBody "alice"
    1704103200000 1704110400000 rfl rfl rfl rfl

/-- C9 counterexample: a processing failure, a persistence failure, and the
unexpected-fault response all carry HTTP status 500, so unexpected faults do
not use a status category distinct from the processing/persistence one. -/
theorem c9_status_category_counterexample :
    (handleSession envNoCompress aliceBody).response.status = 500 ∧
    (handleSession envNoSave aliceBody).response.status = 500 ∧
    internalErrorResponse.status = 500 := by
  refine ⟨by decide, by decide, rfl⟩

/-- C9 (amended): validation failures use status 400; processing failures,
persistence failures and unexpected faults all use status 500, the
unexpected-fault response being distinguished from the typed processing and
persistence failures only by its error payload, not by its status. -/
theorem c9_status_categories (env : Env) (b : RequestBody) :
    ((∃ m, validate b = .error m) ↔ (handleSession env b).response.status = 400) ∧
    ((handleSession env b).response.error = some processingFailedMsg →
      (handleSession env b).response.status = 500) ∧
    ((handleSession env b).response.error = some dbFailedMsg →
      (handleSession env b).response.status = 500) ∧
    internalErrorResponse.status = 500 ∧
    internalErrorResponse.error ≠ some processingFailedMsg ∧
    internalErrorResponse.error ≠ some dbFailedMsg := by
  refine ⟨?_, ?_, ?_, rfl, by decide, by decide⟩
  · cases hv : validate b with
    | error m => simp [handleSession, hv]
    | ok t =>
      obtain ⟨u, s, e⟩ := t
      rcases handleSession_ok_status env b u s e hv with h4 | h4 <;>
        simp [h4, hv]
  · cases hv : validate b with
    | error m =>
      intro herr
      have hmem := validate_error_mem b m hv
      simp [handleSession, hv] at herr
      subst herr
      exact absurd hmem (by decide)
    | ok t =>
      obtain ⟨u, s, e⟩ := t
      cases hc : env.compressOk <;> cases hx : env.extractOk <;>
        cases hsv : env.saveOk <;> simp [handleSession, hv, hc, hx, hsv]
  · cases hv : validate b with
    | error m =>
      intro herr
      have hmem := validate_error_mem b m hv
      simp [handleSession, hv] at herr
      subst herr
      exact absurd hmem (by decide)
    | ok t =>
      obtain ⟨u, s, e⟩ := t
      cases hc : env.compressOk <;> cases hx : env.extractOk <;>
        cases hsv : env.saveOk <;> simp [handleSession, hv, hc, hx, hsv]

/-- C9 (amended) witness: on a rejected input the status is 400, and the
concrete processing-failure response indeed has status 500. -/
theorem c9_witness :
    (handleSession envAllOk emptyUserBody).response.status = 400 ∧
    (handleSession envNoCompress aliceBody).response.status = 500 :=
  ⟨(c9_status_categories envAllOk emptyUserBody).1.mp ⟨missingFieldsMsg, rfl⟩,
   (c9_status_categories envNoCompress aliceBody).2.1 (by decide)⟩

end FocusSession
